import Mathlib

/-!
Verification of the polygon-cutter core (`src/plugin/polygon_cutter/pc_class.py`)
against its natural-language specification.

The geometry values handled by the code are shapely objects over float
coordinates.  We embed them as a closed tagged-variant type `Geom P` over an
abstract coordinate type `P`; the claims under scrutiny dispatch on geometry
*type* and on list structure only, never on coordinate arithmetic, so `P`
stays a parameter (concrete witnesses use `Int × Int`).  External GEOS
operations (linemerge, unary_union, polygonize, centroid, intersects, area)
are modelled as explicit function parameters: the code under `src/` is the
authority for everything it does itself, while the GEOS kernel is an
external collaborator.
-/

namespace NBL

/-- Tagged-variant embedding of the shapely geometry kinds that
`pc_class.py` dispatches on.  `polygon` carries its exterior shell ring plus
interior hole rings; `multiPolygon` carries a list of (shell, holes) pairs.
`geometryCollection` stands for any geometry whose `geom_type` is outside
the recognised list at `pc_class.py:76`, and `noneGeom` stands for a Python
`None` / NaN entry in a geometry column (produced at the `explode` of the
`single_lines` column when `ToSingleLines` returned `None`). -/
inductive Geom (P : Type) where
  | point (p : P)
  | multiPoint (ps : List P)
  | lineString (coords : List P)
  | multiLineString (parts : List (List P))
  | polygon (shell : List P) (holes : List (List P))
  | multiPolygon (polys : List (List P × List (List P)))
  | geometryCollection
  | noneGeom
  deriving DecidableEq

/-- Embedding of shapely's `geom_type` string attribute. -/
def geomType {P : Type} : Geom P → String
  | .point _ => "Point"
  | .multiPoint _ => "MultiPoint"
  | .lineString _ => "LineString"
  | .multiLineString _ => "MultiLineString"
  | .polygon _ _ => "Polygon"
  | .multiPolygon _ => "MultiPolygon"
  | .geometryCollection => "GeometryCollection"
  | .noneGeom => "None"

/-- Membership test `geom_type in ['LineString', 'MultiLineString']`
(`pc_class.py:83` and `pc_class.py:137`). -/
def isLineKind {P : Type} (g : Geom P) : Bool :=
  decide (geomType g ∈ ["LineString", "MultiLineString"])

/-- Membership test `geom_type in ['Polygon', 'MultiPolygon']`
(`pc_class.py:96` and `pc_class.py:142`). -/
def isPolyKind {P : Type} (g : Geom P) : Bool :=
  decide (geomType g ∈ ["Polygon", "MultiPolygon"])

/-- Membership test `geom_type in ['Point', 'MultiPoint']`
(`pc_class.py:156`). -/
def isPointKind {P : Type} (g : Geom P) : Bool :=
  decide (geomType g ∈ ["Point", "MultiPoint"])

/-- Embedding of `list(map(LineString, zip(coords[:-1], coords[1:])))`
(`pc_class.py:71,91,109`): walk consecutive coordinate pairs and emit one
two-vertex line per pair.  `coords.zip coords.tail` produces exactly the
pairs of `zip(coords[:-1], coords[1:])` because `zip` truncates to the
shorter list. -/
def atomize {P : Type} (coords : List P) : List (List P) :=
  (coords.zip coords.tail).map (fun ab => [ab.1, ab.2])

/-- Embedding of `MultiLineDevolver` (`pc_class.py:68-73`): flatten a
multilinestring into its component lines, atomizing each component into
two-vertex lines. -/
def MultiLineDevolver {P : Type} (parts : List (List P)) : List (List P) :=
  (parts.map atomize).flatten

/-- Result of a shapely `boundary` call on a polygonal geometry: either a
single ring linestring or a multilinestring of rings.  Also reused as the
result type of `shapely.ops.linemerge`, which likewise returns a
`LineString` or a `MultiLineString`. -/
inductive Lines (P : Type) where
  | ls (coords : List P)
  | mls (parts : List (List P))
  deriving DecidableEq

/-- Shapely `polygon.boundary` (`pc_class.py:98`): a polygon without holes
yields its shell ring as a `LineString`; a polygon with holes yields a
`MultiLineString` of all rings. -/
def polyBoundary {P : Type} (shell : List P) (holes : List (List P)) : Lines P :=
  if holes.isEmpty then .ls shell else .mls (shell :: holes)

/-- Result of `ToSingleLines` (`pc_class.py:65-114`): a list of produced
lines, the implicit Python `None` return (point / multipoint fall-through),
or a `sys.exit` abort (`pc_class.py:79` for unrecognised geometry kinds;
an entry with no geometry would abort with an attribute error on
`geom.geom_type`, modelled by the same constructor). -/
inductive TSL (P : Type) where
  | lines (ls : List (List P))
  | noneVal
  | sysExit
  deriving DecidableEq

/-- Embedding of `ToSingleLines` (`pc_class.py:65-114`).  The source is an
if-chain on `geom.geom_type`; here it is the equivalent exhaustive match on
the constructors.  Branches: line kinds atomize directly (`83-92`), polygon
kinds take the boundary and atomize it (`96-110`), point kinds fall through
to Python's implicit `None` return, anything else hits the `sys.exit` at
`pc_class.py:79`.  A multipolygon boundary is a `MultiLineString` of all
its rings. -/
def ToSingleLines {P : Type} : Geom P → TSL P
  | .lineString coords => .lines (atomize coords)
  | .multiLineString parts => .lines (MultiLineDevolver parts)
  | .polygon shell holes =>
      match polyBoundary shell holes with
      | .ls coords => .lines (atomize coords)
      | .mls parts => .lines (MultiLineDevolver parts)
  | .multiPolygon polys =>
      .lines (MultiLineDevolver ((polys.map (fun q => q.1 :: q.2)).flatten))
  | .point _ => .noneVal
  | .multiPoint _ => .noneVal
  | .geometryCollection => .sysExit
  | .noneGeom => .sysExit

/-- Embedding of `gdf.explode(index_parts=False)` on one row
(`pc_class.py:145`): multi-part geometries are split into their single
parts, single-part geometries are kept as one row. -/
def explodeRow {P : Type} : Geom P → List (Geom P)
  | .multiPolygon polys => polys.map (fun q => .polygon q.1 q.2)
  | .multiLineString parts => parts.map .lineString
  | .multiPoint ps => ps.map .point
  | g => [g]

/-- Sequenced application of `ToSingleLines` across all rows
(`pc_class.py:147`): `none` records that some row hit `sys.exit` (which
kills the whole process); otherwise each row carries either its list of
produced lines or the Python `None`. -/
def tslAll {P : Type} : List (Geom P) → Option (List (Option (List (List P))))
  | [] => some []
  | g :: gs =>
      match ToSingleLines g with
      | .sysExit => none
      | .lines ls => (tslAll gs).map (fun r => some ls :: r)
      | .noneVal => (tslAll gs).map (fun r => none :: r)

/-- Embedding of `output_gdf = input_gdf.explode('single_lines')` followed
by `SwapGeometry` (`pc_class.py:149-151`) on one row: a list value becomes
one row per element, while a `None` value or an empty list becomes a single
row whose geometry entry is missing (pandas yields `None`/NaN there). -/
def explodeSingleLines {P : Type} : Option (List (List P)) → List (Geom P)
  | none => [.noneGeom]
  | some [] => [.noneGeom]
  | some ls => ls.map .lineString

/-- Result of `check_geom` (`pc_class.py:133-157`): the returned rows, the
raised `IOError`, a `sys.exit` from within `ToSingleLines`, the implicit
`None` return when no branch matches, or the pandas key error that the
first-record lookup `input_gdf.geometry[0]` raises on an empty frame. -/
inductive CheckResult (P : Type) where
  | ok (rows : List (Geom P))
  | ioError (msg : String)
  | sysExit
  | noneReturn
  | keyError
  deriving DecidableEq

/-- Embedding of `check_geom` (`pc_class.py:133-157`).  The dispatch
inspects only `input_gdf.geometry[0]`, i.e. the first record: a line-kind
first record returns the whole frame unchanged (`137-139`); a polygon-kind
first record explodes every row, converts each through `ToSingleLines` and
explodes the resulting `single_lines` column (`142-153`); a point-kind
first record raises `IOError('Shape is not a Polygon or Line')`
(`156-157`); any other kind falls through to Python's implicit `None`. -/
def checkGeom {P : Type} : List (Geom P) → CheckResult P
  | [] => .keyError
  | g :: rest =>
      if isLineKind g then .ok (g :: rest)
      else if isPolyKind g then
        match tslAll (((g :: rest).map explodeRow).flatten) with
        | none => .sysExit
        | some vals => .ok ((vals.map explodeSingleLines).flatten)
      else if isPointKind g then .ioError "Shape is not a Polygon or Line"
      else .noneReturn

/-! ### The segment-catalog pipeline (`pc_class.py:251-287`)

After `check_geom`, `PC.__init__` deduplicates rows by centroid, keeps only
line-kind rows, merges multilinestrings, explodes any that remain, and then
assigns dense 1-based `seg_index` identifiers.  The GEOS centroid
computation (projected, serialised to WKB bytes at `pc_class.py:254-256`)
is abstracted as a key function into a type with decidable equality, and
`shapely.ops.linemerge` as a function into `Lines` (the library returns a
`LineString` or a `MultiLineString`). -/

/-- Recursion core of the centroid deduplication: keep a row when no
earlier row had the same key (pandas `drop_duplicates` keeps the first
occurrence and preserves order). -/
def dedupGo {P K : Type} [DecidableEq K] (key : Geom P → K) :
    List (Geom P) → List K → List (Geom P)
  | [], _ => []
  | g :: gs, seen =>
      if key g ∈ seen then dedupGo key gs seen
      else g :: dedupGo key gs (key g :: seen)

/-- Embedding of `drop_duplicates(['centroid'])` (`pc_class.py:253-258`). -/
def dedupCentroid {P K : Type} [DecidableEq K] (key : Geom P → K)
    (rows : List (Geom P)) : List (Geom P) :=
  dedupGo key rows []

/-- Embedding of the line-type filter (`pc_class.py:268-270`): compute each
row's `geom_type` and keep only rows whose type is in
`['LineString', 'MultiLineString']`; no error path exists. -/
def filterLineType {P : Type} (rows : List (Geom P)) : List (Geom P) :=
  rows.filter (fun g => isLineKind g)

/-- Conversion of a `linemerge` result back into a geometry row. -/
def linesToGeom {P : Type} : Lines P → Geom P
  | .ls coords => .lineString coords
  | .mls parts => .multiLineString parts

/-- Embedding of `pc_class.py:273`: apply `shapely.ops.linemerge` to every
row that is a `MultiLineString`, leave every other row unchanged. -/
def mergeMultis {P : Type} (lm : List (List P) → Lines P)
    (rows : List (Geom P)) : List (Geom P) :=
  rows.map (fun g =>
    match g with
    | .multiLineString parts => linesToGeom (lm parts)
    | g => g)

/-- Bool test for a `MultiLineString` row (`geom_type == 'MultiLineString'`,
`pc_class.py:278,282`). -/
def isMLS {P : Type} (g : Geom P) : Bool :=
  decide (geomType g = "MultiLineString")

/-- Embedding of `pc_class.py:278-285`: if any multilinestrings remain
after merging, drop them from the frame, explode them into single
linestrings and append the parts at the end; otherwise leave the frame
untouched. -/
def explodeRemainingMultis {P : Type} (rows : List (Geom P)) : List (Geom P) :=
  let multis := rows.filter isMLS
  if multis.length > 0 then
    rows.filter (fun g => !isMLS g) ++ (multis.map explodeRow).flatten
  else rows

/-- The full catalog pipeline from the deduplication step to the state in
which `seg_index` is assigned (`pc_class.py:251-287`). -/
def segCatalog {P K : Type} [DecidableEq K] (key : Geom P → K)
    (lm : List (List P) → Lines P) (rows : List (Geom P)) : List (Geom P) :=
  explodeRemainingMultis (mergeMultis lm (filterLineType (dedupCentroid key rows)))

/-- Embedding of `self.line_geom['seg_index'] = range(1, len + 1)`
(`pc_class.py:287`): pair each catalog row with its dense 1-based id. -/
def assignSegIds {P : Type} (rows : List (Geom P)) : List (Nat × Geom P) :=
  ((List.range rows.length).zip rows).map (fun x => (x.1 + 1, x.2))

/-! ### The polygon cutter (`CutPolygon`, `pc_class.py:168-196`)

`CutPolygon` drives external GEOS operations; they are collected in a
`GeoOps` record over abstract polygonal (`G`) and linear (`L`) geometry
types.  `linemergeList` is `shapely.ops.linemerge` applied to a list of
geometries (`pc_class.py:185`), `linemergeOne` the same library call
applied to a single (multi)line geometry (`pc_class.py:192`). -/

structure GeoOps (G L : Type) where
  linemergeList : List L → L
  boundary : G → L
  unaryUnion : List L → L
  linemergeOne : L → L
  polygonize : L → List G
  multiPolygon : List G → G

/-- Embedding of `CutPolygon` (`pc_class.py:168-196`), with the source's
local `cut_single` rebindings kept step for step: an empty intersect tuple
returns the input geometry unchanged (`176-177`); otherwise the referenced
segments are gathered with `isin` (`182`), line-merged (`185`), the
building boundary appended (`188`), the list unioned (`190`), the union
line-merged again (`192`), polygonized (`194`) and wrapped into one
multipolygon (`196`). -/
def CutPolygon {G L : Type} (ops : GeoOps G L) (intersect_indexes : List Nat)
    (in_geom : G) (line_geom : List (Nat × L)) : G :=
  if intersect_indexes.length = 0 then in_geom
  else
    let cutters := line_geom.filter (fun r => intersect_indexes.contains r.1)
    let cut_single := [ops.linemergeList (cutters.map Prod.snd)]
    let cut_single := cut_single ++ [ops.boundary in_geom]
    let cut_single := ops.unaryUnion cut_single
    let cut_single := ops.linemergeOne cut_single
    ops.multiPolygon (ops.polygonize cut_single)

/-- The noded line network that `CutPolygon` hands to `polygonize` in its
non-empty branch (the value of `cut_single` after `pc_class.py:192`). -/
def nodedLines {G L : Type} (ops : GeoOps G L) (intersect_indexes : List Nat)
    (in_geom : G) (line_geom : List (Nat × L)) : L :=
  ops.linemergeOne (ops.unaryUnion
    ([ops.linemergeList
        (((line_geom.filter (fun r => intersect_indexes.contains r.1)).map Prod.snd))]
      ++ [ops.boundary in_geom]))

/-- Modelled from the spec: the cut pipeline as §4.4 words it — gather the
referenced segment geometries, line-merge them into maximal connected
linestrings, append the building's own boundary, compute the union of all
these lines, line-merge the union result again, polygonize, and wrap the
faces into one multi-polygon.  Stated only as the refinement target for
the step-order claim about `CutPolygon`. -/
def cutSpecPipeline {G L : Type} (ops : GeoOps G L) (ids : List Nat)
    (building : G) (catalog : List (Nat × L)) : G :=
  let gathered := (catalog.filter (fun r => ids.contains r.1)).map Prod.snd
  let merged := ops.linemergeList gathered
  let withBoundary := [merged, ops.boundary building]
  let noded := ops.unaryUnion withBoundary
  let remerged := ops.linemergeOne noded
  let faces := ops.polygonize remerged
  ops.multiPolygon faces

/-! ### The spatial linker (`FindIntersects`, `pc_class.py:160-165`)

`gpd.sjoin(..., op='intersects')` produces one row per (building, segment)
pair whose geometries intersect under the GEOS `intersects` predicate
(which includes mere boundary touching); the predicate itself is external
and enters as the parameter `intersects`. -/

/-- Embedding of the spatial join (`pc_class.py:163`): for each building
row, one `(building id, segment id)` pair per intersecting segment row. -/
def sjoinPairs {B S : Type} (intersects : B → S → Bool)
    (input : List (Nat × B)) (search : List (Nat × S)) : List (Nat × Nat) :=
  (input.map (fun b =>
    (search.filter (fun s => intersects b.2 s.2)).map (fun s => (b.1, s.1)))).flatten

/-- Embedding of the per-building tuple built at `pc_class.py:164`: the
segment ids of the join rows whose building id equals this building's. -/
def lineInts {B S : Type} (intersects : B → S → Bool)
    (input : List (Nat × B)) (search : List (Nat × S)) (b : Nat × B) : List Nat :=
  ((sjoinPairs intersects input search).filter
    (fun j => decide (j.1 = b.1))).map Prod.snd

/-- Embedding of `FindIntersects` (`pc_class.py:160-165`): every building
row gains its `line_ints` tuple. -/
def FindIntersects {B S : Type} (intersects : B → S → Bool)
    (input : List (Nat × B)) (search : List (Nat × S)) :
    List (Nat × B × List Nat) :=
  input.map (fun b => (b.1, b.2, lineInts intersects input search b))

/-! ### Sliver filtering (`pc_class.py:309-312`)

Fragment rows carry their parent `bp_index` and a geometry; the GEOS area
computation is abstracted as `areaOf : G → ℚ` (rationals stand for the
finite decimal values involved). -/

/-- A fragment row after the cut results are exploded
(`pc_class.py:300-301`). -/
structure Frag (G : Type) where
  bp_index : Nat
  geom : G
  deriving DecidableEq

/-- Embedding of Python's `round(x, 2)`.  (Python rounds ties half to even
while Mathlib's `round` rounds ties up; the two differ only at exact
half-hundredth ties, which no statement here exercises.) -/
def round2 (x : ℚ) : ℚ := (round (100 * x) : ℤ) / 100

/-- Embedding of `self.bp['split_area'] = round(self.bp.geometry.area, 2)`
(`pc_class.py:309`). -/
def splitArea {G : Type} (areaOf : G → ℚ) (f : Frag G) : ℚ :=
  round2 (areaOf f.geom)

/-- Embedding of `self.slivers = self.bp[self.bp.split_area <= sliver_max_area]`
(`pc_class.py:311`). -/
def sliversOf {G : Type} (areaOf : G → ℚ) (sliver_max_area : ℚ)
    (rows : List (Frag G)) : List (Frag G) :=
  rows.filter (fun f => decide (splitArea areaOf f ≤ sliver_max_area))

/-- Embedding of `self.bp = self.bp[self.bp.split_area >= sliver_max_area]`
(`pc_class.py:312`); at the moment this filter is evaluated `self.bp` is
still the full fragment frame, so both filters read the same rows. -/
def outputOf {G : Type} (areaOf : G → ℚ) (sliver_max_area : ℚ)
    (rows : List (Frag G)) : List (Frag G) :=
  rows.filter (fun f => decide (sliver_max_area ≤ splitArea areaOf f))

/-! ### Concrete instances used to evaluate claim statements -/

/-- Number of vertices of a single linestring row (coordinate count). -/
def numVertices {P : Type} : Geom P → Nat
  | .lineString coords => coords.length
  | _ => 0

/-- A concrete instantiation of the external geometry operations over
natural numbers, used to evaluate hypotheses of the `CutPolygon` theorems
on concrete inputs. -/
def opsNat : GeoOps Nat Nat where
  linemergeList := fun l => l.sum
  boundary := fun g => g + 1
  unaryUnion := fun l => l.sum
  linemergeOne := fun l => l + 1
  polygonize := fun l => [l, l + 1]
  multiPolygon := fun gs => gs.sum

/-- External operations whose polygonization yields zero faces on every
input. -/
def opsZeroFaces : GeoOps Nat Nat :=
  { opsNat with polygonize := fun _ => [] }

/-- A concrete three-vertex linestring used as cut input. -/
def ls3 : Geom (Int × Int) :=
  Geom.lineString [(0, 0), (1, 0), (2, 0)]

/-- A concrete triangle polygon (closed shell ring, no holes). -/
def sqPoly : Geom (Int × Int) :=
  Geom.polygon [(0, 0), (1, 0), (1, 1), (0, 0)] []

end NBL

namespace NBL

/-! ## Claim C1 — sliver partition at the threshold -/

/-- C1: the claim asserts a strict partition (`area < sliver_max_area`
to slivers, `area >= sliver_max_area` to output, every fragment in exactly
one collection), but the inclusive filters at `pc_class.py:311-312` place a
fragment whose rounded area equals `sliver_max_area` exactly (area 20 at
the default threshold 20) in the sliver collection and in the output
collection simultaneously. -/
theorem sliver_threshold_fragment_in_both :
    sliversOf (fun _ : Unit => (20 : ℚ)) 20 [⟨1, ()⟩] = [⟨1, ()⟩] ∧
      outputOf (fun _ : Unit => (20 : ℚ)) 20 [⟨1, ()⟩] = [⟨1, ()⟩] := by
  have hA : splitArea (fun _ : Unit => (20 : ℚ)) ⟨1, ()⟩ = 20 := by
    unfold splitArea round2
    rw [show (100 * 20 : ℚ) = ((2000 : ℤ) : ℚ) by norm_num, round_intCast]
    norm_num
  unfold sliversOf outputOf
  simp [List.filter_cons, hA]

/-! ## Claim C3 — identity case of the cut -/

/-- C3: if the linked segment identifier set is empty, `CutPolygon`
returns the building geometry itself, unchanged, for every choice of
external operations, building geometry and segment catalog. -/
theorem cutPolygon_empty_ids_identity {G L : Type} (ops : GeoOps G L)
    (ids : List Nat) (in_geom : G) (line_geom : List (Nat × L))
    (h : ids.length = 0) :
    CutPolygon ops ids in_geom line_geom = in_geom := by
  unfold CutPolygon
  simp [h]

/-- Witness: the identity case evaluated at a concrete empty id list. -/
theorem cutPolygon_empty_ids_identity_witness :
    ([] : List Nat).length = 0 ∧ CutPolygon opsNat [] 7 [(1, 2)] = 7 :=
  ⟨rfl, cutPolygon_empty_ids_identity opsNat [] 7 [(1, 2)] rfl⟩

/-! ## Claim C7 — the cut pipeline refines the spec's step sequence -/

/-- C7: for a non-empty linked segment set, `CutPolygon` performs exactly
the step sequence the spec prescribes: gather the referenced segment
geometries, line-merge them, append the building's boundary, union all the
lines, line-merge the union again, polygonize, and wrap the faces into one
multi-polygon (`cutSpecPipeline`, worded from §4.4 of the spec). -/
theorem cutPolygon_refines_spec_pipeline {G L : Type} (ops : GeoOps G L)
    (ids : List Nat) (building : G) (catalog : List (Nat × L))
    (h : 1 ≤ ids.length) :
    CutPolygon ops ids building catalog = cutSpecPipeline ops ids building catalog := by
  unfold CutPolygon cutSpecPipeline
  have h0 : ¬ ids.length = 0 := by omega
  simp [h0]

/-- Witness: the refinement evaluated at one concrete linked segment. -/
theorem cutPolygon_refines_spec_pipeline_witness :
    1 ≤ ([1] : List Nat).length ∧
      CutPolygon opsNat [1] 5 [(1, 3)] = cutSpecPipeline opsNat [1] 5 [(1, 3)] :=
  ⟨by decide, cutPolygon_refines_spec_pipeline opsNat [1] 5 [(1, 3)] (by decide)⟩

/-! ## Claim C6 — zero polygonization faces are silently wrapped -/

/-- C6 counterexample: at a concrete building with one linked segment and
external operations whose polygonization yields zero faces, `CutPolygon`
returns the empty multipolygon wrap — not the retained input geometry, and
through no error path. -/
theorem cutPolygon_zero_faces_counterexample :
    CutPolygon opsZeroFaces [1] 7 [(1, 3)] = opsZeroFaces.multiPolygon [] ∧
      opsZeroFaces.multiPolygon [] ≠ 7 := by
  constructor <;> decide

/-- C6 (amended): when polygonization yields zero faces for a building
with a non-empty linked segment set, `CutPolygon` silently returns the
empty multipolygon wrap; no error value exists on this path. -/
theorem cutPolygon_zero_faces_silent_empty {G L : Type} (ops : GeoOps G L)
    (ids : List Nat) (building : G) (catalog : List (Nat × L))
    (h1 : ids.length ≠ 0)
    (h2 : ops.polygonize (nodedLines ops ids building catalog) = []) :
    CutPolygon ops ids building catalog = ops.multiPolygon [] := by
  have key : CutPolygon ops ids building catalog
      = ops.multiPolygon (ops.polygonize (nodedLines ops ids building catalog)) := by
    unfold CutPolygon nodedLines
    rw [if_neg h1]
  rw [key, h2]

/-- Witness: the zero-faces branch evaluated at a concrete input. -/
theorem cutPolygon_zero_faces_silent_empty_witness :
    ([1] : List Nat).length ≠ 0 ∧
      opsZeroFaces.polygonize (nodedLines opsZeroFaces [1] 7 [(1, 3)]) = [] ∧
      CutPolygon opsZeroFaces [1] 7 [(1, 3)] = opsZeroFaces.multiPolygon [] :=
  ⟨by decide, rfl,
    cutPolygon_zero_faces_silent_empty opsZeroFaces [1] 7 [(1, 3)] (by decide) rfl⟩

/-! ## Kind lemmas shared by the `check_geom` claims -/

/-- A point-kind geometry is not line-kind. -/
theorem isPointKind_not_line {P : Type} (g : Geom P) (h : isPointKind g = true) :
    isLineKind g = false := by
  cases g <;> simp_all [isPointKind, isLineKind, geomType]

/-- A point-kind geometry is not polygon-kind. -/
theorem isPointKind_not_poly {P : Type} (g : Geom P) (h : isPointKind g = true) :
    isPolyKind g = false := by
  cases g <;> simp_all [isPointKind, isPolyKind, geomType]

/-! ## Claim C4 — point cut geometry aborts the whole conversion -/

/-- C4 counterexample: a collection holding a point record first and a
well-formed line record after it makes the whole `check_geom` call raise
`IOError('Shape is not a Polygon or Line')`; no record of the collection
survives, so the run does not continue for the other records, and no
`UnsupportedGeometryError` is involved. -/
theorem checkGeom_point_aborts_counterexample :
    checkGeom [Geom.point ((0 : Int), (0 : Int)),
        Geom.lineString [((0 : Int), (0 : Int)), ((1 : Int), (0 : Int))]] =
      CheckResult.ioError "Shape is not a Polygon or Line" := by
  decide

/-- C4 (amended): whenever the first cut-geometry record is a point or
multipoint, `check_geom` raises the plain `IOError` for the entire
collection: the conversion yields no rows at all, so processing stops for
every record rather than continuing per-record. -/
theorem checkGeom_point_first_raises_ioerror {P : Type} (g : Geom P)
    (rest : List (Geom P)) (h : isPointKind g = true) :
    checkGeom (g :: rest) = CheckResult.ioError "Shape is not a Polygon or Line" := by
  unfold checkGeom
  simp [isPointKind_not_line g h, isPointKind_not_poly g h, h]

/-- Witness: the amended point-abort behaviour at a concrete multipoint. -/
theorem checkGeom_point_first_raises_ioerror_witness :
    isPointKind (Geom.multiPoint [((3 : Int), (4 : Int))]) = true ∧
      checkGeom [Geom.multiPoint [((3 : Int), (4 : Int))], ls3] =
        CheckResult.ioError "Shape is not a Polygon or Line" :=
  ⟨by decide,
    checkGeom_point_first_raises_ioerror (Geom.multiPoint [((3 : Int), (4 : Int))])
      [ls3] (by decide)⟩

/-! ## Claim C9 — the dispatch inspects only the first record -/

/-- C9: `check_geom` dispatches on the first record alone: a line-kind
first record returns the entire collection unchanged whatever the
remaining records are, and the point error is raised only when the first
record is a point or multipoint. -/
theorem checkGeom_dispatch_first_record {P : Type} :
    (∀ (g : Geom P) (rest : List (Geom P)), isLineKind g = true →
        checkGeom (g :: rest) = CheckResult.ok (g :: rest)) ∧
    (∀ (rows : List (Geom P)) (msg : String),
        checkGeom rows = CheckResult.ioError msg →
        ∃ g rest, rows = g :: rest ∧ isPointKind g = true) := by
  constructor
  · intro g rest h
    unfold checkGeom
    simp [h]
  · intro rows msg h
    cases rows with
    | nil => simp [checkGeom] at h
    | cons g rest =>
      refine ⟨g, rest, rfl, ?_⟩
      by_cases hq : isPointKind g = true
      · exact hq
      · exfalso
        have hEq : checkGeom (g :: rest)
            = (if isLineKind g then CheckResult.ok (g :: rest)
               else if isPolyKind g then
                 match tslAll (((g :: rest).map explodeRow).flatten) with
                 | none => CheckResult.sysExit
                 | some vals => CheckResult.ok ((vals.map explodeSingleLines).flatten)
               else if isPointKind g then
                 CheckResult.ioError "Shape is not a Polygon or Line"
               else CheckResult.noneReturn) := rfl
        rw [hEq] at h
        by_cases hl : isLineKind g = true
        · rw [if_pos hl] at h
          exact CheckResult.noConfusion h
        · rw [if_neg hl] at h
          by_cases hp : isPolyKind g = true
          · rw [if_pos hp] at h
            cases htsl : tslAll (((g :: rest).map explodeRow).flatten) with
            | none => rw [htsl] at h; exact CheckResult.noConfusion h
            | some vals => rw [htsl] at h; exact CheckResult.noConfusion h
          · rw [if_neg hp, if_neg hq] at h
            exact CheckResult.noConfusion h

/-- Witness: the pass-through evaluated with a point in the tail, and the
only-if direction at a pure point collection. -/
theorem checkGeom_dispatch_first_record_witness :
    checkGeom [ls3, Geom.point ((5 : Int), (5 : Int))] =
      CheckResult.ok [ls3, Geom.point ((5 : Int), (5 : Int))] ∧
    (∃ g rest,
        ([Geom.point ((0 : Int), (0 : Int))] : List (Geom (Int × Int))) = g :: rest ∧
        isPointKind g = true) :=
  ⟨(@checkGeom_dispatch_first_record (Int × Int)).1 ls3 _ (by decide),
   (@checkGeom_dispatch_first_record (Int × Int)).2 _
      "Shape is not a Polygon or Line" (by decide)⟩

/-! ## Claim C5 — segment atomicity holds only on the polygon path -/

/-- Helper: every line emitted by `atomize` has exactly two coordinates. -/
theorem atomize_mem_length {P : Type} (coords : List P) (s : List P)
    (h : s ∈ atomize coords) : s.length = 2 := by
  unfold atomize at h
  obtain ⟨ab, _, rfl⟩ := List.mem_map.1 h
  rfl

/-- Helper: every line emitted by `MultiLineDevolver` has exactly two
coordinates. -/
theorem devolver_mem_length {P : Type} (parts : List (List P)) (s : List P)
    (h : s ∈ MultiLineDevolver parts) : s.length = 2 := by
  unfold MultiLineDevolver at h
  obtain ⟨l, hl, hs⟩ := List.mem_flatten.1 h
  obtain ⟨c, _, rfl⟩ := List.mem_map.1 hl
  exact atomize_mem_length c s hs

/-- C5 counterexample: a cut collection whose only record is a
three-vertex linestring is passed through `check_geom` unchanged and
reaches the segment catalog still carrying three vertices — the produced
segment does not have exactly two vertices, and the line-type input was
not atomized. -/
theorem checkGeom_three_vertex_passthrough_counterexample :
    checkGeom [ls3] = CheckResult.ok [ls3] ∧
      ls3 ∈ segCatalog (fun _ => (0 : Nat)) (fun ps => Lines.mls ps) [ls3] ∧
      numVertices ls3 ≠ 2 := by
  refine ⟨by decide, by decide, by decide⟩

/-- C5 (amended): every line produced by `ToSingleLines` — the
decomposition used on the polygon path — has exactly two vertices, but a
collection whose first record is line-kind is returned by `check_geom`
unchanged: line-type input is passed through, not atomized, so its
linestrings keep their original vertex count. -/
theorem toSingleLines_atomic_and_line_passthrough {P : Type} :
    (∀ (g : Geom P) (ls : List (List P)), ToSingleLines g = TSL.lines ls →
        ∀ s ∈ ls, s.length = 2) ∧
    (∀ (g : Geom P) (rest : List (Geom P)), isLineKind g = true →
        checkGeom (g :: rest) = CheckResult.ok (g :: rest)) := by
  constructor
  · intro g ls h s hs
    cases g with
    | lineString coords =>
        unfold ToSingleLines at h
        cases h
        exact atomize_mem_length coords s hs
    | multiLineString parts =>
        unfold ToSingleLines at h
        cases h
        exact devolver_mem_length parts s hs
    | polygon shell holes =>
        cases holes with
        | nil =>
            unfold ToSingleLines polyBoundary at h
            simp at h
            subst h
            exact atomize_mem_length shell s hs
        | cons hh ht =>
            unfold ToSingleLines polyBoundary at h
            simp at h
            subst h
            exact devolver_mem_length (shell :: hh :: ht) s hs
    | multiPolygon polys =>
        unfold ToSingleLines at h
        cases h
        exact devolver_mem_length _ s hs
    | point p => exact absurd h (by simp [ToSingleLines])
    | multiPoint ps => exact absurd h (by simp [ToSingleLines])
    | geometryCollection => exact absurd h (by simp [ToSingleLines])
    | noneGeom => exact absurd h (by simp [ToSingleLines])
  · intro g rest h
    unfold checkGeom
    simp [h]

/-- Witness: atomicity evaluated at the concrete triangle polygon, and the
pass-through at the concrete three-vertex linestring. -/
theorem toSingleLines_atomic_and_line_passthrough_witness :
    ToSingleLines sqPoly =
      TSL.lines (atomize [((0 : Int), (0 : Int)), (1, 0), (1, 1), (0, 0)]) ∧
      ([((0 : Int), (0 : Int)), (1, 0)] : List (Int × Int)).length = 2 ∧
      isLineKind ls3 = true ∧
      checkGeom [ls3] = CheckResult.ok [ls3] :=
  ⟨rfl,
    (@toSingleLines_atomic_and_line_passthrough (Int × Int)).1 sqPoly _ rfl _ (by decide),
    by decide,
    (@toSingleLines_atomic_and_line_passthrough (Int × Int)).2 ls3 [] (by decide)⟩

/-! ## Claim C10 — the catalog keeps only line-type rows -/

/-- Helper: a row of the catalog after id assignment comes from the
catalog list. -/
theorem assignSegIds_mem {P : Type} (rows : List (Geom P)) (x : Nat × Geom P)
    (h : x ∈ assignSegIds rows) : x.2 ∈ rows := by
  unfold assignSegIds at h
  obtain ⟨y, hy, rfl⟩ := List.mem_map.1 h
  obtain ⟨i, g⟩ := y
  exact (List.of_mem_zip hy).2

/-- Helper: the linemerge pass preserves line-kindness. -/
theorem mergeMultis_line_kind {P : Type} (lm : List (List P) → Lines P)
    (rows : List (Geom P)) (hrows : ∀ g ∈ rows, isLineKind g = true) :
    ∀ g ∈ mergeMultis lm rows, isLineKind g = true := by
  intro g hg
  unfold mergeMultis at hg
  obtain ⟨g0, hg0, rfl⟩ := List.mem_map.1 hg
  cases g0 with
  | multiLineString parts =>
      show isLineKind (linesToGeom (lm parts)) = true
      cases lm parts with
      | ls c => rfl
      | mls ps => rfl
  | point p => exact hrows _ hg0
  | multiPoint ps => exact hrows _ hg0
  | lineString c => rfl
  | polygon sh ho => exact hrows _ hg0
  | multiPolygon ps => exact hrows _ hg0
  | geometryCollection => exact hrows _ hg0
  | noneGeom => exact hrows _ hg0

/-- Helper: the final multilinestring explosion preserves line-kindness. -/
theorem explodeRemainingMultis_line_kind {P : Type} (rows : List (Geom P))
    (hrows : ∀ g ∈ rows, isLineKind g = true) :
    ∀ g ∈ explodeRemainingMultis rows, isLineKind g = true := by
  intro g hg
  simp only [explodeRemainingMultis] at hg
  by_cases hlen : (rows.filter isMLS).length > 0
  · rw [if_pos hlen] at hg
    rcases List.mem_append.1 hg with hg1 | hg2
    · exact hrows g (List.mem_of_mem_filter hg1)
    · obtain ⟨l, hl, hgl⟩ := List.mem_flatten.1 hg2
      obtain ⟨m, hm, rfl⟩ := List.mem_map.1 hl
      have hmls : isMLS m = true := (List.mem_filter.1 hm).2
      cases m with
      | multiLineString parts =>
          simp only [explodeRow] at hgl
          obtain ⟨c, _, rfl⟩ := List.mem_map.1 hgl
          rfl
      | point p => simp [isMLS, geomType] at hmls
      | multiPoint ps => simp [isMLS, geomType] at hmls
      | lineString c => simp [isMLS, geomType] at hmls
      | polygon sh ho => simp [isMLS, geomType] at hmls
      | multiPolygon ps => simp [isMLS, geomType] at hmls
      | geometryCollection => simp [isMLS, geomType] at hmls
      | noneGeom => simp [isMLS, geomType] at hmls
  · rw [if_neg hlen] at hg
    exact hrows g hg

/-- C10: after centroid deduplication, every row whose geometry type is
not `LineString`/`MultiLineString` is removed by the filter at
`pc_class.py:268-270` (a pure filter with no error path), and every row of
the catalog at the moment `seg_index` is assigned is line-type. -/
theorem catalog_line_type_only {P K : Type} [DecidableEq K] (key : Geom P → K)
    (lm : List (List P) → Lines P) (rows : List (Geom P)) :
    (∀ g ∈ dedupCentroid key rows, isLineKind g = false →
        g ∉ filterLineType (dedupCentroid key rows)) ∧
    (∀ x ∈ assignSegIds (segCatalog key lm rows), isLineKind x.2 = true) := by
  constructor
  · intro g _ hfalse hmem
    have htrue : isLineKind g = true := (List.mem_filter.1 hmem).2
    rw [hfalse] at htrue
    exact Bool.noConfusion htrue
  · intro x hx
    have hx2 := assignSegIds_mem _ x hx
    unfold segCatalog at hx2
    refine explodeRemainingMultis_line_kind _ ?_ x.2 hx2
    exact mergeMultis_line_kind lm _ (fun g hg => (List.mem_filter.1 hg).2)

/-- Witness: the filter removing a concrete point row and the catalog
invariant at the concrete three-vertex linestring. -/
theorem catalog_line_type_only_witness :
    (Geom.point ((9 : Int), (9 : Int)) ∈
        dedupCentroid (fun g => g) [Geom.point ((9 : Int), (9 : Int)), ls3] ∧
      isLineKind (Geom.point ((9 : Int), (9 : Int))) = false ∧
      Geom.point ((9 : Int), (9 : Int)) ∉
        filterLineType (dedupCentroid (fun g => g)
          [Geom.point ((9 : Int), (9 : Int)), ls3])) ∧
    ((1, ls3) : Nat × Geom (Int × Int)) ∈
        assignSegIds (segCatalog (fun g => g) (fun ps => Lines.mls ps)
          [Geom.point ((9 : Int), (9 : Int)), ls3]) ∧
      isLineKind ((1, ls3) : Nat × Geom (Int × Int)).2 = true := by
  refine ⟨⟨by decide, by decide, ?_⟩, by decide, ?_⟩
  · exact (catalog_line_type_only (fun g => g) (fun ps => Lines.mls ps)
      [Geom.point ((9 : Int), (9 : Int)), ls3]).1 _ (by decide) (by decide)
  · exact (catalog_line_type_only (fun g => g) (fun ps => Lines.mls ps)
      [Geom.point ((9 : Int), (9 : Int)), ls3]).2 (1, ls3) (by decide)

/-! ## Claim C8 — the spatial linker -/

/-- Helper: every join pair's building id occurs among the input ids. -/
theorem sjoinPairs_fst_mem {B S : Type} (intersects : B → S → Bool)
    (input : List (Nat × B)) (search : List (Nat × S)) (j : Nat × Nat)
    (hj : j ∈ sjoinPairs intersects input search) : j.1 ∈ input.map Prod.fst := by
  unfold sjoinPairs at hj
  obtain ⟨l, hl, hjl⟩ := List.mem_flatten.1 hj
  obtain ⟨b, hb, rfl⟩ := List.mem_map.1 hl
  obtain ⟨s, _, rfl⟩ := List.mem_map.1 hjl
  exact List.mem_map.2 ⟨b, hb, rfl⟩

/-- Helper: restricting the join rows to one building id recovers exactly
that building's block of the join, provided building ids are distinct. -/
theorem sjoin_filter_eq {B S : Type} (intersects : B → S → Bool)
    (input : List (Nat × B)) (search : List (Nat × S)) (b : Nat × B)
    (hb : (input.map Prod.fst).Nodup) (hmem : b ∈ input) :
    (sjoinPairs intersects input search).filter (fun j => decide (j.1 = b.1)) =
      (search.filter (fun s => intersects b.2 s.2)).map (fun s => (b.1, s.1)) := by
  induction input with
  | nil => cases hmem
  | cons hd tl ih =>
      have hsj : sjoinPairs intersects (hd :: tl) search
          = (search.filter (fun s => intersects hd.2 s.2)).map (fun s => (hd.1, s.1))
            ++ sjoinPairs intersects tl search := rfl
      rw [List.map_cons] at hb
      have hcons := List.nodup_cons.1 hb
      rw [hsj, List.filter_append]
      rcases List.mem_cons.1 hmem with rfl | hmem2
      · have h1 : ((search.filter (fun s => intersects b.2 s.2)).map
            (fun s => (b.1, s.1))).filter (fun j => decide (j.1 = b.1))
            = (search.filter (fun s => intersects b.2 s.2)).map (fun s => (b.1, s.1)) := by
          rw [List.filter_map]
          simp [Function.comp]
        have h2 : (sjoinPairs intersects tl search).filter
            (fun j => decide (j.1 = b.1)) = [] := by
          rw [List.filter_eq_nil_iff]
          intro j hj
          have hfst := sjoinPairs_fst_mem intersects tl search j hj
          simp only [decide_eq_true_eq]
          intro heq
          exact hcons.1 (heq ▸ hfst)
        rw [h1, h2, List.append_nil]
      · have hne : hd.1 ≠ b.1 := by
          have hbin : b.1 ∈ tl.map Prod.fst := List.mem_map.2 ⟨b, hmem2, rfl⟩
          intro he
          exact hcons.1 (he ▸ hbin)
        have h1 : ((search.filter (fun s => intersects hd.2 s.2)).map
            (fun s => (hd.1, s.1))).filter (fun j => decide (j.1 = b.1)) = [] := by
          rw [List.filter_eq_nil_iff]
          intro j hj
          obtain ⟨s, _, rfl⟩ := List.mem_map.1 hj
          simp [hne]
        rw [h1, List.nil_append, ih hcons.2 hmem2]

/-- C8: with distinct building ids and distinct segment ids (as the
pipeline assigns at `pc_class.py:212,287`), `FindIntersects` gives every
building row a duplicate-free id list containing exactly the segments
whose geometry intersects the building under the join predicate, and a
building intersected by no segment carries the empty list (a list value,
never a missing one). -/
theorem findIntersects_linked_ids {B S : Type} (intersects : B → S → Bool)
    (input : List (Nat × B)) (search : List (Nat × S))
    (hb : (input.map Prod.fst).Nodup) (hs : (search.map Prod.fst).Nodup) :
    ∀ b ∈ input,
      (b.1, b.2, lineInts intersects input search b) ∈
          FindIntersects intersects input search ∧
      (lineInts intersects input search b).Nodup ∧
      (∀ sid, sid ∈ lineInts intersects input search b ↔
          ∃ s ∈ search, s.1 = sid ∧ intersects b.2 s.2 = true) ∧
      ((∀ s ∈ search, intersects b.2 s.2 = false) →
          lineInts intersects input search b = []) := by
  intro b hbmem
  have hkey : lineInts intersects input search b
      = (search.filter (fun s => intersects b.2 s.2)).map Prod.fst := by
    unfold lineInts
    rw [sjoin_filter_eq intersects input search b hb hbmem, List.map_map]
    rfl
  refine ⟨List.mem_map.2 ⟨b, hbmem, rfl⟩, ?_, ?_, ?_⟩
  · rw [hkey]
    exact hs.sublist ((List.filter_sublist search).map Prod.fst)
  · intro sid
    rw [hkey]
    simp only [List.mem_map, List.mem_filter]
    constructor
    · rintro ⟨s, ⟨hs1, hs2⟩, rfl⟩
      exact ⟨s, hs1, rfl, hs2⟩
    · rintro ⟨s, hs1, rfl, hs2⟩
      exact ⟨s, ⟨hs1, hs2⟩, rfl⟩
  · intro hnone
    rw [hkey]
    have hfil : search.filter (fun s => intersects b.2 s.2) = [] := by
      rw [List.filter_eq_nil_iff]
      intro s hsmem
      simp [hnone s hsmem]
    rw [hfil]
    rfl

/-- Witness: the linker contract evaluated at a concrete pair of small
collections. -/
theorem findIntersects_linked_ids_witness :
    ((([(1, 10), (2, 20)] : List (Nat × Nat)).map Prod.fst).Nodup ∧
      (([(5, 10), (6, 30)] : List (Nat × Nat)).map Prod.fst).Nodup ∧
      ((1, 10) : Nat × Nat) ∈ ([(1, 10), (2, 20)] : List (Nat × Nat))) ∧
    (lineInts (fun b s => decide (b = s)) [(1, 10), (2, 20)]
        [(5, 10), (6, 30)] (1, 10)).Nodup := by
  refine ⟨⟨by decide, by decide, by decide⟩, ?_⟩
  exact ((findIntersects_linked_ids (fun b s => decide (b = s))
      [(1, 10), (2, 20)] [(5, 10), (6, 30)] (by decide) (by decide))
      (1, 10) (by decide)).2.1

end NBL
